import Mathlib

/-!
Shallow embedding of `src/RMS/Formats/Platepar.py`: the astrometric and
photometric plate-parameter calibration model of the RMS repository.

Modelling conventions:
* Machine floats are modelled by exact rationals (`ℚ`).
* External collaborators that the spec declares out of scope (the scipy
  simplex minimizer, `raDecToXYPP`/`xyToRaDecPP`/`raDec2AltAz`/
  `rotationWrtHorizon`, `np.hypot`, `date2JD`/`jd2Date`) are abstract
  function parameters: the code treats them as pure functions.
* `Platepar` objects are modelled twice, faithfully to the two ways the
  source manipulates them: as a fixed record (the attribute set created by
  `Platepar.__init__`) for the in-place operations, and as an attribute
  dictionary (`self.__dict__`) for `loadFromDict`, which replaces the whole
  attribute dictionary by the parsed JSON dictionary.
-/

namespace RMSPlatepar

/-- JSON-style attribute values stored in a platepar attribute dictionary.
`date jd` stands for the datetime object produced by the external
`jd2Date jd` call, so the derived time field can be stated without
modelling calendar arithmetic. -/
inductive PVal where
  | none
  | num (q : ℚ)
  | str (s : String)
  | bool (b : Bool)
  | numList (l : List ℚ)
  | strList (l : List String)
  | starList (l : List (List ℚ))
  | date (jd : ℚ)
deriving DecidableEq

/-- A Python attribute dictionary: an association list from attribute names
to values, first binding wins on lookup (bindings are kept unique by
`Dict.set`). -/
abbrev Dict := List (String × PVal)

/-- Dictionary lookup, i.e. attribute access. -/
def Dict.get? (d : Dict) (k : String) : Option PVal :=
  match d with
  | [] => Option.none
  | (k1, v) :: rest => if k1 = k then some v else Dict.get? rest k

/-- Python `key in self.__dict__`. -/
def Dict.hasKey (d : Dict) (k : String) : Bool :=
  (d.get? k).isSome

/-- Attribute assignment: replace the binding in place if the key exists,
append it otherwise (Python dict insertion-order semantics). -/
def Dict.set (d : Dict) (k : String) (v : PVal) : Dict :=
  match d with
  | [] => [(k, v)]
  | (k1, v1) :: rest => if k1 = k then (k1, v) :: rest else (k1, v1) :: Dict.set rest k v

/-- Python `del` of one attribute. -/
def Dict.erase (d : Dict) (k : String) : Dict :=
  d.filter (fun p => p.1 != k)

/-- The Platepar object as a record: one field per attribute created by
`Platepar.__init__` (Platepar.py lines 134-226).  `x_poly`/`y_poly` are the
legacy alias attributes created in `resetDistortionParameters` and
reassigned by `loadFromDict` and `jsonStr`. -/
structure Platepar where
  version : ℚ
  distortion_type : String
  distortion_type_list : List String
  lat : ℚ
  lon : ℚ
  elev : ℚ
  time : PVal
  JD : ℚ
  UT_corr : ℚ
  Ho : ℚ
  X_res : ℚ
  Y_res : ℚ
  focal_length : ℚ
  fov_h : ℚ
  fov_v : ℚ
  RA_d : ℚ
  RA_H : ℚ
  RA_M : ℚ
  RA_S : ℚ
  dec_d : ℚ
  dec_D : ℚ
  dec_M : ℚ
  dec_S : ℚ
  pos_angle_ref : ℚ
  rotation_from_horiz : ℚ
  az_centre : ℚ
  alt_centre : ℚ
  F_scale : ℚ
  mag_0 : ℚ
  mag_lev : ℚ
  mag_lev_stddev : ℚ
  gamma : ℚ
  vignetting_coeff : Option ℚ
  station_code : Option String
  star_list : Option (List (List ℚ))
  auto_check_fit_refined : Bool
  auto_recalibrated : Bool
  x_poly_fwd : List ℚ
  y_poly_fwd : List ℚ
  x_poly_rev : List ℚ
  y_poly_rev : List ℚ
  x_poly : List ℚ
  y_poly : List ℚ
deriving DecidableEq

/-- The list of recognized distortion types assigned to
`self.distortion_type_list` in `setDistortionType` (lines 234-239). -/
def validDistortionTypes : List String :=
  ["poly3+radial", "radial3", "radial5", "radial7"]

/-- The coefficient vector produced by `resetDistortionParameters` for each
of the distortion vectors: 12 zeros with element 0 then set to 0.5. -/
def halfCenterVec : List ℚ :=
  (List.replicate 12 (0 : ℚ)).set 0 (1/2)

/-- `Platepar.resetDistortionParameters` (lines 210-226): the four vectors
are zeroed, `x_poly`/`y_poly` are bound to the forward arrays, and element
0 of every one of the four arrays is set to 0.5 in place; through the
aliases, `x_poly`/`y_poly` end up with the same value as the forward
vectors. -/
def resetDistortionParameters (pp : Platepar) : Platepar :=
  { pp with
    x_poly_fwd := halfCenterVec
    y_poly_fwd := halfCenterVec
    x_poly_rev := halfCenterVec
    y_poly_rev := halfCenterVec
    x_poly := halfCenterVec
    y_poly := halfCenterVec }

/-- `Platepar.setDistortionType` (lines 230-251).  Returns the updated
object together with an error message when the requested name is not
recognized (the `ValueError` raised by the source).  The
`distortion_type_list` attribute is assigned before the membership test,
so it is updated even on the error path, while `distortion_type` and the
coefficient vectors are not. -/
def setDistortionType (pp : Platepar) (distortion_type : String)
    (reset_params : Bool) : Platepar × Option String :=
  let pp1 := { pp with distortion_type_list := validDistortionTypes }
  if distortion_type ∈ validDistortionTypes then
    let pp2 := { pp1 with distortion_type := distortion_type }
    (if reset_params then resetDistortionParameters pp2 else pp2, Option.none)
  else
    (pp1, some "The distortion type is not recognized")

/-- `Platepar.addVignettingCoeff` (lines 254-273).  `np.hypot` is an
external pure function passed as a parameter; `use_flat` is
None/True/False in the source and only True is truthy; 0.001 is the exact
decimal 1/1000. -/
def addVignettingCoeff (hypot : ℚ → ℚ → ℚ) (pp : Platepar)
    (use_flat : Option Bool) : Platepar :=
  match pp.vignetting_coeff with
  | some _ => pp
  | Option.none =>
    if use_flat = some true then
      { pp with vignetting_coeff := some 0 }
    else
      let c := 1/1000 * hypot 1280 720 / hypot pp.X_res pp.Y_res
      { pp with vignetting_coeff := some c }

/-- The plain attribute assignments of `Platepar.__init__` (lines 151-204).
The distortion-vector fields carry placeholder values here because in the
source those attributes do not exist until `resetDistortionParameters`
creates them, which always happens before `__init__` returns. -/
def initBase (distortion_type : String) : Platepar where
  version := 2
  distortion_type := distortion_type
  distortion_type_list := []
  lat := 0
  lon := 0
  elev := 0
  time := PVal.num 0
  JD := 0
  UT_corr := 0
  Ho := 0
  X_res := 0
  Y_res := 0
  focal_length := 0
  fov_h := 0
  fov_v := 0
  RA_d := 0
  RA_H := 0
  RA_M := 0
  RA_S := 0
  dec_d := 0
  dec_D := 0
  dec_M := 0
  dec_S := 0
  pos_angle_ref := 0
  rotation_from_horiz := 0
  az_centre := 0
  alt_centre := 0
  F_scale := 1
  mag_0 := -(5/2)
  mag_lev := 1
  mag_lev_stddev := 0
  gamma := 1
  vignetting_coeff := some 0
  station_code := Option.none
  star_list := Option.none
  auto_check_fit_refined := false
  auto_recalibrated := false
  x_poly_fwd := []
  y_poly_fwd := []
  x_poly_rev := []
  y_poly_rev := []
  x_poly := []
  y_poly := []

/-- `Platepar.__init__` (lines 134-207): the plain field assignments, a
`setDistortionType` call (which, called with its default
`reset_params=True`, already resets the distortion vectors) and one more
`resetDistortionParameters` call at the end.  An unrecognized distortion
type makes construction fail with the `ValueError` from
`setDistortionType`.  The plain assignments touch none of the fields
written by `setDistortionType`, so applying them first is equivalent to
the source order. -/
def Platepar.new (distortion_type : String) : Except String Platepar :=
  match setDistortionType (initBase distortion_type) distortion_type true with
  | (pp, Option.none) => Except.ok (resetDistortionParameters pp)
  | (_, some e) => Except.error e

/-- Axis selector for the per-axis distortion fits (the `dimension`
argument, 'x' or 'y'). -/
inductive Axis where
  | x
  | y
deriving DecidableEq

/-- External collaborators of `Platepar.fitAstrometry`: one abstract
minimizer per objective closure (`_calcImageResidualsAstro`,
`_calcImageResidualsDistortion`, `_calcSkyResidualsDistortion`), plus
`raDec2AltAz`.  Each minimizer receives everything its closure and `args`
tuple capture — the live platepar, the Julian date and both star arrays —
together with the start vector, and returns the optimized vector. -/
structure FitExt where
  minAstro : Platepar → ℚ → List (List ℚ) → List (List ℚ) →
    ℚ × ℚ × ℚ × ℚ → ℚ × ℚ × ℚ × ℚ
  minRev : Platepar → ℚ → List (List ℚ) → List (List ℚ) → Axis →
    List ℚ → List ℚ
  minFwd : Platepar → ℚ → List (List ℚ) → List (List ℚ) → Axis →
    List ℚ → List ℚ
  raDec2AltAz : ℚ → ℚ → ℚ → ℚ → ℚ → ℚ × ℚ

/-- Whether the pattern (first argument) is an initial segment of the
text (second argument), by characters. -/
def charsStartWith : List Char → List Char → Bool
  | [], _ => true
  | _ :: _, [] => false
  | a :: as, b :: bs => a == b && charsStartWith as bs

/-- Whether the pattern (second argument) occurs contiguously in the text
(first argument). -/
def charsContains : List Char → List Char → Bool
  | [], sub => sub.isEmpty
  | c :: rest, sub => charsStartWith sub (c :: rest) || charsContains rest sub

/-- Python substring test `sub in s`, used for the
`"poly" in self.distortion_type` gate of the per-axis Y fits. -/
def strContains (s sub : String) : Bool :=
  charsContains s.data sub.data

/-- Stage 1 of `Platepar.fitAstrometry` (lines 436-458): simplex fit of
(RA, Dec, position angle, scale) started from the current values, written
back, followed by recomputing the derived az/alt centre from the updated
pointing. -/
def astroStage (ext : FitExt) (jd : ℚ)
    (img_stars catalog_stars : List (List ℚ)) (pp : Platepar) : Platepar :=
  let r := ext.minAstro pp jd catalog_stars img_stars
    (pp.RA_d, pp.dec_d, pp.pos_angle_ref, pp.F_scale)
  let pp1 := { pp with RA_d := r.1, dec_d := r.2.1, pos_angle_ref := r.2.2.1,
                       F_scale := r.2.2.2 }
  let c := ext.raDec2AltAz pp1.JD pp1.lon pp1.lat pp1.RA_d pp1.dec_d
  { pp1 with az_centre := c.1, alt_centre := c.2 }

/-- Reverse-mapping distortion fit (lines 466-488): fit and store the X
reverse vector; the Y reverse vector is fit only when the distortion type
contains "poly" (radial families keep everything in the X vector).  The Y
fit sees the already-updated object, as `args=(self, ...)` passes the live
object. -/
def reverseStage (ext : FitExt) (jd : ℚ)
    (img_stars catalog_stars : List (List ℚ)) (pp : Platepar) : Platepar :=
  let xr := ext.minRev pp jd catalog_stars img_stars Axis.x pp.x_poly_rev
  let pp1 := { pp with x_poly_rev := xr }
  if strContains pp1.distortion_type "poly" then
    let yr := ext.minRev pp1 jd catalog_stars img_stars Axis.y pp1.y_poly_rev
    { pp1 with y_poly_rev := yr }
  else
    pp1

/-- Copy of a coefficient vector with its element 0 negated, all other
elements kept: `np.array(v)` followed by `arr[0] *= -1`. -/
def negFirst (v : List ℚ) : List ℚ :=
  v.set 0 (-(v.headD 0))

/-- First-fit initialization of the forward vectors (lines 492-500): both
forward vectors become independent copies of the just-fit reverse vectors
with their first coefficient sign-inverted. -/
def firstFitInit (pp : Platepar) : Platepar :=
  { pp with x_poly_fwd := negFirst pp.x_poly_rev
            y_poly_fwd := negFirst pp.y_poly_rev }

/-- Forward-mapping distortion fit (lines 504-527), with the same
polynomial-vs-radial gating as the reverse stage. -/
def forwardStage (ext : FitExt) (jd : ℚ)
    (img_stars catalog_stars : List (List ℚ)) (pp : Platepar) : Platepar :=
  let xf := ext.minFwd pp jd catalog_stars img_stars Axis.x pp.x_poly_fwd
  let pp1 := { pp with x_poly_fwd := xf }
  if strContains pp1.distortion_type "poly" then
    let yf := ext.minFwd pp1 jd catalog_stars img_stars Axis.y pp1.y_poly_fwd
    { pp1 with y_poly_fwd := yf }
  else
    pp1

/-- The provenance star list built in lines 533-541: for each paired star,
the Julian date followed by the image triple and the catalog triple. -/
def buildStarList (jd : ℚ) (img_stars catalog_stars : List (List ℚ)) :
    List (List ℚ) :=
  (img_stars.zip catalog_stars).map (fun p => jd :: (p.1 ++ p.2))

/-- Provenance update (lines 533-546): store the star list used for the
fit and clear both refinement flags. -/
def provenanceStage (jd : ℚ) (img_stars catalog_stars : List (List ℚ))
    (pp : Platepar) : Platepar :=
  { pp with star_list := some (buildStarList jd img_stars catalog_stars)
            auto_check_fit_refined := false
            auto_recalibrated := false }

/-- `Platepar.fitAstrometry` (lines 277-548).  Returns the updated platepar
and a flag recording whether the too-few-stars warning was printed (the
distortion gate of line 464: distortion is fit only when more than 12
paired stars are supplied). -/
def fitAstrometry (ext : FitExt) (jd : ℚ)
    (img_stars catalog_stars : List (List ℚ)) (first_platepar_fit : Bool)
    (pp : Platepar) : Platepar × Bool :=
  let pp1 := astroStage ext jd img_stars catalog_stars pp
  if 12 < img_stars.length then
    let pp2 := reverseStage ext jd img_stars catalog_stars pp1
    let pp3 := if first_platepar_fit then firstFitInit pp2 else pp2
    let pp4 := forwardStage ext jd img_stars catalog_stars pp3
    (provenanceStage jd img_stars catalog_stars pp4, false)
  else
    (provenanceStage jd img_stars catalog_stars pp1, true)

/-- Legacy-format read conversion of the image-scale line (lines 724-726):
the disk stores arcseconds per pixel, the model keeps pixels per degree. -/
def arcsecPerPxToPxPerDeg (s : ℚ) : ℚ :=
  3600 / s

/-- Legacy-format write conversion of the image scale (line 847): the
model's pixels per degree are written to disk as 3600 / F_scale. -/
def pxPerDegToArcsecPerPx (p : ℚ) : ℚ :=
  3600 / p

/-- An optional float attribute value (used for vignetting_coeff). -/
def optNum : Option ℚ → PVal
  | Option.none => PVal.none
  | some q => PVal.num q

/-- An optional string attribute value (used for station_code). -/
def optStr : Option String → PVal
  | Option.none => PVal.none
  | some s => PVal.str s

/-- An optional star-list attribute value (used for star_list). -/
def optStars : Option (List (List ℚ)) → PVal
  | Option.none => PVal.none
  | some l => PVal.starList l

/-- The attribute dictionary (`self.__dict__`) of a platepar record, in the
attribute creation order of `Platepar.__init__`. -/
def Platepar.toDict (pp : Platepar) : Dict :=
  [("version", PVal.num pp.version),
   ("distortion_type", PVal.str pp.distortion_type),
   ("distortion_type_list", PVal.strList pp.distortion_type_list),
   ("lat", PVal.num pp.lat),
   ("lon", PVal.num pp.lon),
   ("elev", PVal.num pp.elev),
   ("time", pp.time),
   ("JD", PVal.num pp.JD),
   ("UT_corr", PVal.num pp.UT_corr),
   ("Ho", PVal.num pp.Ho),
   ("X_res", PVal.num pp.X_res),
   ("Y_res", PVal.num pp.Y_res),
   ("focal_length", PVal.num pp.focal_length),
   ("fov_h", PVal.num pp.fov_h),
   ("fov_v", PVal.num pp.fov_v),
   ("RA_d", PVal.num pp.RA_d),
   ("RA_H", PVal.num pp.RA_H),
   ("RA_M", PVal.num pp.RA_M),
   ("RA_S", PVal.num pp.RA_S),
   ("dec_d", PVal.num pp.dec_d),
   ("dec_D", PVal.num pp.dec_D),
   ("dec_M", PVal.num pp.dec_M),
   ("dec_S", PVal.num pp.dec_S),
   ("pos_angle_ref", PVal.num pp.pos_angle_ref),
   ("rotation_from_horiz", PVal.num pp.rotation_from_horiz),
   ("az_centre", PVal.num pp.az_centre),
   ("alt_centre", PVal.num pp.alt_centre),
   ("F_scale", PVal.num pp.F_scale),
   ("mag_0", PVal.num pp.mag_0),
   ("mag_lev", PVal.num pp.mag_lev),
   ("mag_lev_stddev", PVal.num pp.mag_lev_stddev),
   ("gamma", PVal.num pp.gamma),
   ("vignetting_coeff", optNum pp.vignetting_coeff),
   ("station_code", optStr pp.station_code),
   ("star_list", optStars pp.star_list),
   ("auto_check_fit_refined", PVal.bool pp.auto_check_fit_refined),
   ("auto_recalibrated", PVal.bool pp.auto_recalibrated),
   ("x_poly_fwd", PVal.numList pp.x_poly_fwd),
   ("y_poly_fwd", PVal.numList pp.y_poly_fwd),
   ("x_poly_rev", PVal.numList pp.x_poly_rev),
   ("y_poly_rev", PVal.numList pp.y_poly_rev),
   ("x_poly", PVal.numList pp.x_poly),
   ("y_poly", PVal.numList pp.y_poly)]

/-- `Platepar.jsonStr` (lines 751-770) at dictionary level: on a deep copy,
the four distortion vectors are converted to plain lists (the identity at
value level), the `time` attribute is deleted, and the legacy
`x_poly`/`y_poly` attributes are rewritten to the forward vectors;
`json.dumps` followed by `json.loads` is the identity on this value-level
dictionary, so the serialized document is represented by the dictionary
itself. -/
def Platepar.jsonStr (pp : Platepar) : Dict :=
  ((pp.toDict.erase "time").set "x_poly" (PVal.numList pp.x_poly_fwd)).set
    "y_poly" (PVal.numList pp.y_poly_fwd)

/-- `Platepar.addVignettingCoeff` at dictionary level (lines 254-273),
used by `loadFromDict`; reading a missing `X_res`/`Y_res` attribute or a
missing `vignetting_coeff` attribute is an `AttributeError`. -/
def addVignettingCoeffD (hypot : ℚ → ℚ → ℚ) (s : Dict)
    (use_flat : Option Bool) : Except String Dict :=
  match s.get? "vignetting_coeff" with
  | some PVal.none =>
    if use_flat = some true then
      Except.ok (s.set "vignetting_coeff" (PVal.num 0))
    else
      match s.get? "X_res", s.get? "Y_res" with
      | some (PVal.num xr), some (PVal.num yr) =>
        let c := 1/1000 * hypot 1280 720 / hypot xr yr
        Except.ok (s.set "vignetting_coeff" (PVal.num c))
      | _, _ => Except.error "AttributeError"
  | some _ => Except.ok s
  | Option.none => Except.error "AttributeError"

/-- `loadFromDict` lines 569-570: platepars without a version are v1. -/
def stepVersion (s : Dict) : Dict :=
  if s.hasKey "version" then s else s.set "version" (PVal.num 1)

/-- `loadFromDict` lines 573-582: default the distortion type; the inner
typo-correction branch tests the very same key and is dead code. -/
def stepDistortionTypeDefault (s : Dict) : Dict :=
  if s.hasKey "distortion_type" then s
  else s.set "distortion_type" (PVal.str "poly3+radial")

/-- `loadFromDict` line 584: `setDistortionType(self.distortion_type,
reset_params=False)` at dictionary level — assign the distortion type
list, then check the stored distortion type and raise if it is not
recognized (also when it is not a string, as a non-string is never in the
list). -/
def stepSetDistortionType (s : Dict) : Except String Dict :=
  match (s.set "distortion_type_list"
      (PVal.strList validDistortionTypes)).get? "distortion_type" with
  | some (PVal.str dt) =>
    if dt ∈ validDistortionTypes then
      Except.ok ((s.set "distortion_type_list"
        (PVal.strList validDistortionTypes)).set "distortion_type"
        (PVal.str dt))
    else
      Except.error "The distortion type is not recognized"
  | _ => Except.error "The distortion type is not recognized"

/-- `loadFromDict` lines 587-588: default UT correction. -/
def stepUTCorr (s : Dict) : Dict :=
  if s.hasKey "UT_corr" then s else s.set "UT_corr" (PVal.num 0)

/-- `loadFromDict` lines 591-592: default gamma. -/
def stepGamma (s : Dict) : Dict :=
  if s.hasKey "gamma" then s else s.set "gamma" (PVal.num 1)

/-- `loadFromDict` lines 595-599: when the vignetting coefficient is
missing, set it to None and run the vignetting defaulting. -/
def stepVignetting (hypot : ℚ → ℚ → ℚ) (use_flat : Option Bool)
    (s : Dict) : Except String Dict :=
  if s.hasKey "vignetting_coeff" then Except.ok s
  else addVignettingCoeffD hypot (s.set "vignetting_coeff" PVal.none) use_flat

/-- `loadFromDict` lines 603-604: default the star list to empty. -/
def stepStarList (s : Dict) : Dict :=
  if s.hasKey "star_list" then s else s.set "star_list" (PVal.starList [])

/-- `loadFromDict` lines 608-613: v1 platepars carried only the single
`x_poly`/`y_poly` vectors, so both forward and reverse vectors are set to
(independent copies of) them; reading a missing `x_poly`/`y_poly` is an
`AttributeError`. -/
def stepPolyAlias (s : Dict) : Except String Dict :=
  if s.hasKey "x_poly_fwd" then Except.ok s
  else
    match s.get? "x_poly", s.get? "y_poly" with
    | some xp, some yp =>
      Except.ok ((((s.set "x_poly_fwd" xp).set "x_poly_rev" xp).set
        "y_poly_fwd" yp).set "y_poly_rev" yp)
    | _, _ => Except.error "AttributeError"

/-- `loadFromDict` lines 617-620: `np.array` coercion of the four vectors;
the coercion is the identity at value level, but reading a missing
attribute is an `AttributeError`. -/
def stepNumpyCoerce (s : Dict) : Except String Dict :=
  match s.get? "x_poly_fwd", s.get? "x_poly_rev",
        s.get? "y_poly_fwd", s.get? "y_poly_rev" with
  | some a, some b, some c, some e =>
    Except.ok ((((s.set "x_poly_fwd" a).set "x_poly_rev" b).set
      "y_poly_fwd" c).set "y_poly_rev" e)
  | _, _, _, _ => Except.error "AttributeError"

/-- `loadFromDict` lines 623-624: bind the legacy `x_poly`/`y_poly`
attributes to the forward vectors. -/
def stepPolyLegacy (s : Dict) : Except String Dict :=
  match s.get? "x_poly_fwd", s.get? "y_poly_fwd" with
  | some xf, some yf =>
    Except.ok ((s.set "x_poly" xf).set "y_poly" yf)
  | _, _ => Except.error "AttributeError"

/-- `loadFromDict` lines 628-629: recompute the horizon-relative rotation
via the external `rotationWrtHorizon` when it is missing. -/
def stepRotation (rotw : Dict → ℚ) (s : Dict) : Dict :=
  if s.hasKey "rotation_from_horiz" then s
  else s.set "rotation_from_horiz" (PVal.num (rotw s))

/-- `loadFromDict` line 632: the human-readable time is always recomputed
from the Julian date via the external `jd2Date`. -/
def stepTime (s : Dict) : Except String Dict :=
  match s.get? "JD" with
  | some (PVal.num jd) => Except.ok (s.set "time" (PVal.date jd))
  | _ => Except.error "bad JD"

/-- `Platepar.loadFromDict` (lines 562-632) at dictionary level.  The first
statement of the source, `self.__dict__ = platepar_dict`, replaces the
whole attribute set with the parsed dictionary, so the result depends only
on the dictionary (and the externals), never on the pre-call object. -/
def loadFromDictD (rotw : Dict → ℚ) (hypot : ℚ → ℚ → ℚ) (d : Dict)
    (use_flat : Option Bool) : Except String Dict := do
  let s := stepDistortionTypeDefault (stepVersion d)
  let s ← stepSetDistortionType s
  let s := stepGamma (stepUTCorr s)
  let s ← stepVignetting hypot use_flat s
  let s := stepStarList s
  let s ← stepPolyAlias s
  let s ← stepNumpyCoerce s
  let s ← stepPolyLegacy s
  stepTime (stepRotation rotw s)

/-! Basic lemmas about the dictionary operations. -/

theorem Dict.get?_set_self (d : Dict) (k : String) (v : PVal) :
    (d.set k v).get? k = some v := by
  induction d with
  | nil => simp [Dict.set, Dict.get?]
  | cons p rest ih =>
    by_cases h : p.1 = k <;> simp [Dict.set, Dict.get?, h, ih]

theorem Dict.get?_set_ne (d : Dict) (k k1 : String) (v : PVal)
    (h : k ≠ k1) : (d.set k v).get? k1 = d.get? k1 := by
  induction d with
  | nil => simp [Dict.set, Dict.get?, h]
  | cons p rest ih =>
    by_cases h1 : p.1 = k <;> by_cases h2 : p.1 = k1 <;>
      simp_all [Dict.set, Dict.get?]

theorem Dict.hasKey_set (d : Dict) (k k1 : String) (v : PVal) :
    (d.set k v).hasKey k1 = true ↔ k1 = k ∨ d.hasKey k1 = true := by
  by_cases h : k = k1
  · subst h
    simp [Dict.hasKey, Dict.get?_set_self]
  · rw [Dict.hasKey, Dict.get?_set_ne d k k1 v h]
    simp [Dict.hasKey]
    exact fun h1 => absurd h1.symm h

/-! Basic lemmas about the reset coefficient vector. -/

theorem getD_replicate_zero (n i : Nat) :
    (List.replicate n (0 : ℚ)).getD i 0 = 0 := by
  induction n generalizing i with
  | zero => simp [List.getD]
  | succ m ih =>
    cases i with
    | zero => simp [List.replicate]
    | succ j => rw [List.replicate]; exact ih j

theorem halfCenterVec_length : halfCenterVec.length = 12 := by
  simp [halfCenterVec]

theorem halfCenterVec_getD_zero : halfCenterVec.getD 0 0 = 1/2 := by
  norm_num [halfCenterVec, List.replicate]

theorem halfCenterVec_getD_pos (i : Nat) (h : 0 < i) :
    halfCenterVec.getD i 0 = 0 := by
  cases i with
  | zero => omega
  | succ j =>
    have : halfCenterVec = (1/2 : ℚ) :: List.replicate 11 0 := by
      norm_num [halfCenterVec, List.replicate]
    rw [this]
    simpa using getD_replicate_zero 11 j

/-! Basic lemmas about negFirst. -/

theorem negFirst_getD_zero (v : List ℚ) :
    (negFirst v).getD 0 0 = -(v.getD 0 0) := by
  cases v <;> simp [negFirst, List.set, List.headD, List.getD]

theorem negFirst_getD_pos (v : List ℚ) (i : Nat) (h : 0 < i) :
    (negFirst v).getD i 0 = v.getD i 0 := by
  cases v with
  | nil => simp [negFirst]
  | cons a t =>
    cases i with
    | zero => omega
    | succ j => simp [negFirst, List.set]

theorem negFirst_length (v : List ℚ) : (negFirst v).length = v.length := by
  simp [negFirst]

/-! Claim C1. -/

/-- The reset shape of one coefficient vector: length 12, element 0 equal
to 0.5, every later element zero. -/
def resetVecSpec (v : List ℚ) : Prop :=
  v.length = 12 ∧ v.getD 0 0 = 1/2 ∧ ∀ i, 0 < i → v.getD i 0 = 0

theorem halfCenterVec_resetVecSpec : resetVecSpec halfCenterVec :=
  ⟨halfCenterVec_length, halfCenterVec_getD_zero, halfCenterVec_getD_pos⟩

/-- The amended C1 statement, for one platepar, one distortion name and
both entry points: `setDistortionType(name, reset_params=True)` succeeds
and leaves all four distortion vectors (and, through the aliases, the
legacy vectors) in the reset shape, and `resetDistortionParameters` does
the same; index 0 of every one of the four vectors is 0.5. -/
def c1Prop (pp : Platepar) (dt : String) : Prop :=
  (setDistortionType pp dt true).2 = Option.none ∧
  resetVecSpec (setDistortionType pp dt true).1.x_poly_fwd ∧
  resetVecSpec (setDistortionType pp dt true).1.y_poly_fwd ∧
  resetVecSpec (setDistortionType pp dt true).1.x_poly_rev ∧
  resetVecSpec (setDistortionType pp dt true).1.y_poly_rev ∧
  resetVecSpec (resetDistortionParameters pp).x_poly_fwd ∧
  resetVecSpec (resetDistortionParameters pp).y_poly_fwd ∧
  resetVecSpec (resetDistortionParameters pp).x_poly_rev ∧
  resetVecSpec (resetDistortionParameters pp).y_poly_rev

/-- C1 (counterexample to the claim as stated): the claim asserts that
after `setDistortionType(name, reset_params=true)` every entry of the
forward vectors is zero; but `resetDistortionParameters` (lines 222-226)
sets element 0 of all four vectors to 0.5, so already at a fresh platepar
and the valid name "radial3" the forward X vector has a nonzero entry. -/
theorem c1_counterexample :
    (setDistortionType (initBase "poly3+radial") "radial3"
      true).1.x_poly_fwd.getD 0 0 ≠ 0 := by
  have h : (setDistortionType (initBase "poly3+radial") "radial3"
      true).1.x_poly_fwd.getD 0 0 = 1/2 := rfl
  rw [h]
  norm_num

/-- C1 (amended): after `setDistortionType(name, reset_params=true)` for
any valid name, and likewise after `resetDistortionParameters()`, all four
distortion coefficient vectors have length 12 with every entry zero except
index 0 of each of the four vectors — forward as well as reverse — which
equals 0.5. -/
theorem c1_reset_zero_with_half_center (pp : Platepar) (dt : String)
    (h : dt ∈ validDistortionTypes) : c1Prop pp dt := by
  simp [c1Prop, setDistortionType, resetDistortionParameters, h,
    halfCenterVec_resetVecSpec]

/-- C1 witness: the amended theorem applied at a concrete platepar and the
valid name "radial5". -/
theorem c1_reset_zero_with_half_center_witness :
    "radial5" ∈ validDistortionTypes ∧
      c1Prop (initBase "poly3+radial") "radial5" :=
  ⟨by decide, c1_reset_zero_with_half_center (initBase "poly3+radial")
    "radial5" (by decide)⟩

/-! Claim C6. -/

/-- The C6 statement for one call: `setDistortionType` reports an error
exactly when the name is not one of the four recognized identifiers; on
the error path the stored distortion type and all four coefficient vectors
are unchanged; on success, the requested name is stored. -/
def c6Prop (pp : Platepar) (dt : String) (reset : Bool) : Prop :=
  ((setDistortionType pp dt reset).2.isSome ↔ dt ∉ validDistortionTypes) ∧
  ((setDistortionType pp dt reset).2.isSome →
    (setDistortionType pp dt reset).1.distortion_type = pp.distortion_type ∧
    (setDistortionType pp dt reset).1.x_poly_fwd = pp.x_poly_fwd ∧
    (setDistortionType pp dt reset).1.y_poly_fwd = pp.y_poly_fwd ∧
    (setDistortionType pp dt reset).1.x_poly_rev = pp.x_poly_rev ∧
    (setDistortionType pp dt reset).1.y_poly_rev = pp.y_poly_rev) ∧
  ((setDistortionType pp dt reset).2 = Option.none →
    (setDistortionType pp dt reset).1.distortion_type = dt)

/-- C6: `setDistortionType` errors if and only if the requested name is
not recognized; the error path leaves the stored distortion type and the
four coefficient vectors untouched, and the success path stores the
requested name. -/
theorem c6_set_distortion_type_error_iff (pp : Platepar) (dt : String)
    (reset : Bool) : c6Prop pp dt reset := by
  by_cases h : dt ∈ validDistortionTypes <;>
    cases reset <;>
      simp [c6Prop, setDistortionType, resetDistortionParameters, h]

/-- C6 witness: the theorem applied at a concrete platepar, once for a bad
name and once for a good one. -/
theorem c6_set_distortion_type_error_iff_witness :
    c6Prop (initBase "poly3+radial") "bogus" true ∧
      c6Prop (initBase "poly3+radial") "radial7" false :=
  ⟨c6_set_distortion_type_error_iff (initBase "poly3+radial") "bogus" true,
   c6_set_distortion_type_error_iff (initBase "poly3+radial") "radial7" false⟩

/-! Claim C7. -/

/-- The C7 statement for one model state, one hypot function and two flat
flags: a set coefficient makes the call a no-op; an unset one is set to 0
under a flat, and to the resolution-scaled default otherwise (also when
the flag is the default None, which is falsy); a second call never changes
anything. -/
def c7Prop (hypot : ℚ → ℚ → ℚ) (pp : Platepar) (f f2 : Option Bool) : Prop :=
  (pp.vignetting_coeff ≠ Option.none → addVignettingCoeff hypot pp f = pp) ∧
  (pp.vignetting_coeff = Option.none →
    (addVignettingCoeff hypot pp f).vignetting_coeff =
      some (if f = some true then 0
            else 1/1000 * hypot 1280 720 / hypot pp.X_res pp.Y_res)) ∧
  addVignettingCoeff hypot (addVignettingCoeff hypot pp f) f2 =
    addVignettingCoeff hypot pp f

/-- C7: `addVignettingCoeff` is a total function, a no-op whenever the
coefficient is already set, sets 0.0 under a flat and the
resolution-scaled default otherwise, and is idempotent: a second
consecutive call (with any flat flag) changes nothing. -/
theorem c7_vignetting_idempotent (hypot : ℚ → ℚ → ℚ) (pp : Platepar)
    (f f2 : Option Bool) : c7Prop hypot pp f f2 := by
  rcases hv : pp.vignetting_coeff with _ | q <;>
    by_cases hf : f = some true <;>
      simp [c7Prop, addVignettingCoeff, hv, hf]

/-- C7 witness: the theorem applied at a concrete platepar with an unset
coefficient and at a fresh one with coefficient 0. -/
theorem c7_vignetting_idempotent_witness :
    c7Prop (fun a b => a + b)
      { initBase "radial3" with vignetting_coeff := Option.none }
      Option.none (some true) ∧
    c7Prop (fun a b => a + b) (initBase "radial3") (some false)
      Option.none :=
  ⟨c7_vignetting_idempotent (fun a b => a + b)
      { initBase "radial3" with vignetting_coeff := Option.none }
      Option.none (some true),
   c7_vignetting_idempotent (fun a b => a + b) (initBase "radial3")
      (some false) Option.none⟩

/-! Claim C8. -/

/-- C8: the legacy image-scale conversions are mutually inverse: for any
positive scale s in arcseconds per pixel, converting to pixels per degree
on read and back to arcseconds per pixel on write reproduces s exactly
(the embedding computes with exact rationals, so "to floating-point
precision" holds exactly). -/
theorem c8_scale_round_trip (s : ℚ) (h : 0 < s) :
    pxPerDegToArcsecPerPx (arcsecPerPxToPxPerDeg s) = s ∧
    arcsecPerPxToPxPerDeg (pxPerDegToArcsecPerPx s) = s := by
  have hs : s ≠ 0 := ne_of_gt h
  constructor <;>
    · unfold arcsecPerPxToPxPerDeg pxPerDegToArcsecPerPx
      rw [div_div_eq_mul_div, mul_comm, mul_div_assoc]
      norm_num

/-- C8 witness: the round trip at the concrete scale 2 arcsec/px. -/
theorem c8_scale_round_trip_witness :
    (0 : ℚ) < 2 ∧
      (pxPerDegToArcsecPerPx (arcsecPerPxToPxPerDeg 2) = 2 ∧
       arcsecPerPxToPxPerDeg (pxPerDegToArcsecPerPx 2) = 2) :=
  ⟨by norm_num, c8_scale_round_trip 2 (by norm_num)⟩

/-! Claim C9. -/

/-- The C9 statement for one distortion family name, one hypot function
and one flat flag: construction succeeds, the fresh platepar carries
vignetting coefficient 0.0 (not None), and `addVignettingCoeff` on it is a
complete no-op. -/
def c9Prop (dt : String) (hypot : ℚ → ℚ → ℚ) (f : Option Bool) : Prop :=
  ∃ pp, Platepar.new dt = Except.ok pp ∧ pp.vignetting_coeff = some 0 ∧
    addVignettingCoeff hypot pp f = pp

/-- C9: for every valid distortion family name, a freshly constructed
platepar has vignetting coefficient 0.0 rather than None, so calling
`addVignettingCoeff` on it (with any flat flag) is a no-op; the
resolution-scaled default is therefore reachable only through the load
path, which is the only place that sets the coefficient to None. -/
theorem c9_fresh_platepar_vignetting_zero (dt : String)
    (h : dt ∈ validDistortionTypes) (hypot : ℚ → ℚ → ℚ)
    (f : Option Bool) : c9Prop dt hypot f := by
  refine ⟨resetDistortionParameters
    (setDistortionType (initBase dt) dt true).1, ?_, ?_, ?_⟩
  · simp [Platepar.new, setDistortionType, h]
  · simp [setDistortionType, resetDistortionParameters, h, initBase]
  · simp [addVignettingCoeff, setDistortionType, resetDistortionParameters,
      h, initBase]

/-- C9 witness: the theorem applied at the valid name "radial7". -/
theorem c9_fresh_platepar_vignetting_zero_witness :
    "radial7" ∈ validDistortionTypes ∧
      c9Prop "radial7" (fun a b => a + b) (some false) :=
  ⟨by decide, c9_fresh_platepar_vignetting_zero "radial7" (by decide)
    (fun a b => a + b) (some false)⟩

/-! Claim C3. -/

/-- The C3 statement for one call: with at most 12 star pairs, all four
distortion vectors keep their pre-call values, the too-few-stars warning
is emitted, and the result differs from the input at most in the rigid
astrometric parameters, the az/alt centre that the rigid-astrometry stage
recomputes from them, and the provenance fields (star list and the two
cleared refinement flags). -/
def c3Prop (ext : FitExt) (jd : ℚ) (img cat : List (List ℚ)) (ff : Bool)
    (pp : Platepar) : Prop :=
  (fitAstrometry ext jd img cat ff pp).1.x_poly_fwd = pp.x_poly_fwd ∧
  (fitAstrometry ext jd img cat ff pp).1.y_poly_fwd = pp.y_poly_fwd ∧
  (fitAstrometry ext jd img cat ff pp).1.x_poly_rev = pp.x_poly_rev ∧
  (fitAstrometry ext jd img cat ff pp).1.y_poly_rev = pp.y_poly_rev ∧
  (fitAstrometry ext jd img cat ff pp).2 = true ∧
  ∃ ra dec pa fs az alt,
    (fitAstrometry ext jd img cat ff pp).1 =
      { pp with RA_d := ra, dec_d := dec, pos_angle_ref := pa, F_scale := fs,
                az_centre := az, alt_centre := alt,
                star_list := some (buildStarList jd img cat),
                auto_check_fit_refined := false,
                auto_recalibrated := false }

/-- C3: calling `fitAstrometry` with 12 or fewer star pairs skips all
distortion fitting (the gate of line 464), leaves all four distortion
vectors unchanged, prints the non-fatal warning, and only updates the
rigid astrometric parameters, the az/alt centre derived from them, and
the provenance fields. -/
theorem c3_underdetermined_gate (ext : FitExt) (jd : ℚ)
    (img cat : List (List ℚ)) (ff : Bool) (pp : Platepar)
    (h : img.length ≤ 12) : c3Prop ext jd img cat ff pp := by
  have hn : ¬ 12 < img.length := by omega
  unfold c3Prop fitAstrometry astroStage provenanceStage
  rw [if_neg hn]
  refine ⟨rfl, rfl, rfl, rfl, rfl, ?_⟩
  exact ⟨(ext.minAstro pp jd cat img
            (pp.RA_d, pp.dec_d, pp.pos_angle_ref, pp.F_scale)).1,
         (ext.minAstro pp jd cat img
            (pp.RA_d, pp.dec_d, pp.pos_angle_ref, pp.F_scale)).2.1,
         (ext.minAstro pp jd cat img
            (pp.RA_d, pp.dec_d, pp.pos_angle_ref, pp.F_scale)).2.2.1,
         (ext.minAstro pp jd cat img
            (pp.RA_d, pp.dec_d, pp.pos_angle_ref, pp.F_scale)).2.2.2,
         (ext.raDec2AltAz pp.JD pp.lon pp.lat
            (ext.minAstro pp jd cat img
              (pp.RA_d, pp.dec_d, pp.pos_angle_ref, pp.F_scale)).1
            (ext.minAstro pp jd cat img
              (pp.RA_d, pp.dec_d, pp.pos_angle_ref, pp.F_scale)).2.1).1,
         (ext.raDec2AltAz pp.JD pp.lon pp.lat
            (ext.minAstro pp jd cat img
              (pp.RA_d, pp.dec_d, pp.pos_angle_ref, pp.F_scale)).1
            (ext.minAstro pp jd cat img
              (pp.RA_d, pp.dec_d, pp.pos_angle_ref, pp.F_scale)).2.1).2,
         rfl⟩

/-- C3 witness: the theorem applied at a concrete call with 12 star
pairs. -/
theorem c3_underdetermined_gate_witness :
    (List.replicate 12 ([0, 0, 0] : List ℚ)).length ≤ 12 ∧
      c3Prop { minAstro := fun _ _ _ _ p => p, minRev := fun _ _ _ _ _ v => v,
               minFwd := fun _ _ _ _ _ v => v,
               raDec2AltAz := fun _ _ _ _ _ => (0, 0) }
        0 (List.replicate 12 ([0, 0, 0] : List ℚ))
        (List.replicate 12 ([0, 0, 0] : List ℚ)) false
        (initBase "poly3+radial") :=
  ⟨by decide,
   c3_underdetermined_gate _ 0 (List.replicate 12 ([0, 0, 0] : List ℚ))
     (List.replicate 12 ([0, 0, 0] : List ℚ)) false
     (initBase "poly3+radial") (by decide)⟩

/-! Claim C5. -/

/-- The C5 statement for one call with `first_platepar_fit=true` and more
than 12 star pairs.  `s1` is the platepar state immediately after the
reverse distortion fit; the state handed to the forward fit is
`firstFitInit s1`, whose forward vectors are copies of the just-fit
reverse vectors with the element at index 0 multiplied by -1 and all other
elements equal, the reverse vectors themselves being untouched. -/
def c5Prop (ext : FitExt) (jd : ℚ) (img cat : List (List ℚ))
    (pp : Platepar) : Prop :=
  let s1 := reverseStage ext jd img cat (astroStage ext jd img cat pp)
  let s2 := firstFitInit s1
  fitAstrometry ext jd img cat true pp =
    (provenanceStage jd img cat (forwardStage ext jd img cat s2), false) ∧
  s2.x_poly_fwd.getD 0 0 = -(s1.x_poly_rev.getD 0 0) ∧
  (∀ i, 0 < i → s2.x_poly_fwd.getD i 0 = s1.x_poly_rev.getD i 0) ∧
  s2.x_poly_fwd.length = s1.x_poly_rev.length ∧
  s2.y_poly_fwd.getD 0 0 = -(s1.y_poly_rev.getD 0 0) ∧
  (∀ i, 0 < i → s2.y_poly_fwd.getD i 0 = s1.y_poly_rev.getD i 0) ∧
  s2.y_poly_fwd.length = s1.y_poly_rev.length ∧
  s2.x_poly_rev = s1.x_poly_rev ∧
  s2.y_poly_rev = s1.y_poly_rev

/-- C5: in `fitAstrometry` with `first_platepar_fit=true` and more than 12
star pairs, immediately after the reverse distortion fit and before the
forward distortion fit the forward vectors are set to independent copies
of the just-fit reverse vectors with their element at index 0 multiplied
by -1 and every other element equal (lines 492-500). -/
theorem c5_first_fit_forward_init (ext : FitExt) (jd : ℚ)
    (img cat : List (List ℚ)) (pp : Platepar)
    (h : 12 < img.length) : c5Prop ext jd img cat pp := by
  refine ⟨?_, ?_, ?_, ?_, ?_, ?_, ?_, ?_, ?_⟩
  · simp only [fitAstrometry, h, if_true, if_pos]
  · exact negFirst_getD_zero _
  · exact fun i hi => negFirst_getD_pos _ i hi
  · exact negFirst_length _
  · exact negFirst_getD_zero _
  · exact fun i hi => negFirst_getD_pos _ i hi
  · exact negFirst_length _
  · rfl
  · rfl

/-- C5 witness: the theorem applied at a concrete call with 13 star
pairs. -/
theorem c5_first_fit_forward_init_witness :
    12 < (List.replicate 13 ([0, 0, 0] : List ℚ)).length ∧
      c5Prop { minAstro := fun _ _ _ _ p => p, minRev := fun _ _ _ _ _ v => v,
               minFwd := fun _ _ _ _ _ v => v,
               raDec2AltAz := fun _ _ _ _ _ => (0, 0) }
        0 (List.replicate 13 ([0, 0, 0] : List ℚ))
        (List.replicate 13 ([0, 0, 0] : List ℚ))
        (initBase "poly3+radial") :=
  ⟨by decide,
   c5_first_fit_forward_init _ 0 (List.replicate 13 ([0, 0, 0] : List ℚ))
     (List.replicate 13 ([0, 0, 0] : List ℚ)) (initBase "poly3+radial")
     (by decide)⟩

/-! Claim C10: key tracking through loadFromDict. -/

/-- The attribute names that `loadFromDict` itself may create: the
defaulting rules of lines 569-629 plus the unconditionally rewritten
attributes (`distortion_type_list`, the coerced vectors, the legacy
`x_poly`/`y_poly` aliases and the recomputed `time`). -/
def loadDefaultedKeys : List String :=
  ["version", "distortion_type", "distortion_type_list", "UT_corr", "gamma",
   "vignetting_coeff", "star_list", "x_poly_fwd", "x_poly_rev", "y_poly_fwd",
   "y_poly_rev", "x_poly", "y_poly", "rotation_from_horiz", "time"]

/-- Key evolution along load steps: no attribute is ever removed, and
every attribute of the result is either an attribute of the input or one
of the names `loadFromDict` itself creates. -/
def KeyStep (a b : Dict) : Prop :=
  (∀ k, a.hasKey k = true → b.hasKey k = true) ∧
  (∀ k, b.hasKey k = true → a.hasKey k = true ∨ k ∈ loadDefaultedKeys)

theorem keyStep_refl (a : Dict) : KeyStep a a :=
  ⟨fun _ h => h, fun _ h => Or.inl h⟩

theorem keyStep_trans {a b c : Dict} (h1 : KeyStep a b) (h2 : KeyStep b c) :
    KeyStep a c := by
  refine ⟨fun k hk => h2.1 k (h1.1 k hk), fun k hk => ?_⟩
  rcases h2.2 k hk with hb | hd
  · exact h1.2 k hb
  · exact Or.inr hd

theorem keyStep_set {a b : Dict} (h : KeyStep a b) (k : String)
    (hk : k ∈ loadDefaultedKeys) (v : PVal) : KeyStep a (b.set k v) := by
  constructor
  · intro k1 h1
    exact (Dict.hasKey_set b k k1 v).mpr (Or.inr (h.1 k1 h1))
  · intro k1 h1
    rcases (Dict.hasKey_set b k k1 v).mp h1 with he | hb
    · exact Or.inr (he ▸ hk)
    · exact h.2 k1 hb

theorem keyStep_stepVersion (s : Dict) : KeyStep s (stepVersion s) := by
  unfold stepVersion
  split
  · exact keyStep_refl s
  · exact keyStep_set (keyStep_refl s) "version" (by decide) _

theorem keyStep_stepDistortionTypeDefault (s : Dict) :
    KeyStep s (stepDistortionTypeDefault s) := by
  unfold stepDistortionTypeDefault
  split
  · exact keyStep_refl s
  · exact keyStep_set (keyStep_refl s) "distortion_type" (by decide) _

theorem keyStep_stepSetDistortionType {s s2 : Dict}
    (h : stepSetDistortionType s = Except.ok s2) : KeyStep s s2 := by
  unfold stepSetDistortionType at h
  have h0 : KeyStep s
      (s.set "distortion_type_list" (PVal.strList validDistortionTypes)) :=
    keyStep_set (keyStep_refl s) "distortion_type_list" (by decide) _
  split at h
  next dt heq =>
    split at h
    · cases h
      exact keyStep_set h0 "distortion_type" (by decide) _
    · cases h
  next => cases h

theorem keyStep_stepUTCorr (s : Dict) : KeyStep s (stepUTCorr s) := by
  unfold stepUTCorr
  split
  · exact keyStep_refl s
  · exact keyStep_set (keyStep_refl s) "UT_corr" (by decide) _

theorem keyStep_stepGamma (s : Dict) : KeyStep s (stepGamma s) := by
  unfold stepGamma
  split
  · exact keyStep_refl s
  · exact keyStep_set (keyStep_refl s) "gamma" (by decide) _

theorem keyStep_addVignettingCoeffD {hypot : ℚ → ℚ → ℚ} {s s2 : Dict}
    {f : Option Bool} (h : addVignettingCoeffD hypot s f = Except.ok s2) :
    KeyStep s s2 := by
  unfold addVignettingCoeffD at h
  split at h
  · split at h
    · cases h
      exact keyStep_set (keyStep_refl s) "vignetting_coeff" (by decide) _
    · split at h
      · cases h
        exact keyStep_set (keyStep_refl s) "vignetting_coeff" (by decide) _
      · cases h
  · cases h
    exact keyStep_refl _
  · cases h

theorem keyStep_stepVignetting {hypot : ℚ → ℚ → ℚ} {f : Option Bool}
    {s s2 : Dict} (h : stepVignetting hypot f s = Except.ok s2) :
    KeyStep s s2 := by
  unfold stepVignetting at h
  split at h
  · cases h
    exact keyStep_refl _
  · exact keyStep_trans
      (keyStep_set (keyStep_refl s) "vignetting_coeff" (by decide) PVal.none)
      (keyStep_addVignettingCoeffD h)

theorem keyStep_stepStarList (s : Dict) : KeyStep s (stepStarList s) := by
  unfold stepStarList
  split
  · exact keyStep_refl s
  · exact keyStep_set (keyStep_refl s) "star_list" (by decide) _

theorem keyStep_stepPolyAlias {s s2 : Dict}
    (h : stepPolyAlias s = Except.ok s2) : KeyStep s s2 := by
  unfold stepPolyAlias at h
  split at h
  · cases h
    exact keyStep_refl _
  · split at h
    next xp yp hx hy =>
      cases h
      exact keyStep_set (keyStep_set (keyStep_set (keyStep_set
        (keyStep_refl s) "x_poly_fwd" (by decide) _) "x_poly_rev"
        (by decide) _) "y_poly_fwd" (by decide) _) "y_poly_rev"
        (by decide) _
    next => cases h

theorem keyStep_stepNumpyCoerce {s s2 : Dict}
    (h : stepNumpyCoerce s = Except.ok s2) : KeyStep s s2 := by
  unfold stepNumpyCoerce at h
  split at h
  next a b c e ha hb hc he =>
    cases h
    exact keyStep_set (keyStep_set (keyStep_set (keyStep_set
      (keyStep_refl s) "x_poly_fwd" (by decide) _) "x_poly_rev"
      (by decide) _) "y_poly_fwd" (by decide) _) "y_poly_rev"
      (by decide) _
  next => cases h

theorem keyStep_stepPolyLegacy {s s2 : Dict}
    (h : stepPolyLegacy s = Except.ok s2) : KeyStep s s2 := by
  unfold stepPolyLegacy at h
  split at h
  next xf yf hx hy =>
    cases h
    exact keyStep_set (keyStep_set (keyStep_refl s) "x_poly" (by decide) _)
      "y_poly" (by decide) _
  next => cases h

theorem keyStep_stepRotation (rotw : Dict → ℚ) (s : Dict) :
    KeyStep s (stepRotation rotw s) := by
  unfold stepRotation
  split
  · exact keyStep_refl s
  · exact keyStep_set (keyStep_refl s) "rotation_from_horiz" (by decide) _

theorem keyStep_stepTime {s s2 : Dict} (h : stepTime s = Except.ok s2) :
    KeyStep s s2 := by
  unfold stepTime at h
  split at h
  next jd heq =>
    cases h
    exact keyStep_set (keyStep_refl s) "time" (by decide) _
  next => cases h

theorem except_bind_ok {α β : Type} {x : Except String α}
    {f : α → Except String β} {b : β} (h : (x >>= f) = Except.ok b) :
    ∃ a, x = Except.ok a ∧ f a = Except.ok b := by
  cases x with
  | error e => simp [Bind.bind, Except.bind] at h
  | ok a => exact ⟨a, rfl, by simpa [Bind.bind, Except.bind] using h⟩

/-- The C10 statement: the result of a successful load keeps every key of
the input dictionary (unknown extra keys silently become model fields),
and every key of the result is either an input key or one of the attribute
names the defaulting rules create — so any pre-call attribute outside
those sets (mag_lev_stddev, fov_h, az_centre, F_scale, ...) no longer
exists, the whole pre-call field set having been replaced. -/
def c10Prop (d d2 : Dict) : Prop :=
  (∀ k, d.hasKey k = true → d2.hasKey k = true) ∧
  (∀ k, d2.hasKey k = true → d.hasKey k = true ∨ k ∈ loadDefaultedKeys)

/-- C10: `loadFromDict` replaces the model's whole field set with the
supplied dictionary: the result contains exactly the input keys plus
(possibly) the defaulted attribute names, independent of any pre-call
state (the embedding of loadFromDict takes no pre-call object at all,
mirroring `self.__dict__ = platepar_dict`). -/
theorem c10_load_replaces_field_set (rotw : Dict → ℚ)
    (hypot : ℚ → ℚ → ℚ) (d : Dict) (flat : Option Bool) (d2 : Dict)
    (h : loadFromDictD rotw hypot d flat = Except.ok d2) :
    c10Prop d d2 := by
  unfold loadFromDictD at h
  obtain ⟨s1, h1, h⟩ := except_bind_ok h
  obtain ⟨s2, h2, h⟩ := except_bind_ok h
  obtain ⟨s3, h3, h⟩ := except_bind_ok h
  obtain ⟨s4, h4, h⟩ := except_bind_ok h
  obtain ⟨s5, h5, h⟩ := except_bind_ok h
  have k1 : KeyStep d s1 :=
    keyStep_trans (keyStep_trans (keyStep_stepVersion d)
      (keyStep_stepDistortionTypeDefault _)) (keyStep_stepSetDistortionType h1)
  have k2 : KeyStep d s2 :=
    keyStep_trans (keyStep_trans (keyStep_trans k1 (keyStep_stepUTCorr s1))
      (keyStep_stepGamma _)) (keyStep_stepVignetting h2)
  have k3 : KeyStep d s3 :=
    keyStep_trans (keyStep_trans k2 (keyStep_stepStarList s2))
      (keyStep_stepPolyAlias h3)
  have k4 : KeyStep d s4 := keyStep_trans k3 (keyStep_stepNumpyCoerce h4)
  have k5 : KeyStep d s5 := keyStep_trans k4 (keyStep_stepPolyLegacy h5)
  exact keyStep_trans (keyStep_trans k5 (keyStep_stepRotation rotw s5))
    (keyStep_stepTime h)

/-! Claim C4. -/

/-- A structured document containing only the version-1-style keys of the
claim, with arbitrary numeric values and arbitrary coefficient lists. -/
def v1Doc (lon lat elev JD X_res Y_res focal_length RA_d dec_d
    pos_angle_ref F_scale mag_0 mag_lev : ℚ) (xp yp : List ℚ) : Dict :=
  [("lon", PVal.num lon), ("lat", PVal.num lat), ("elev", PVal.num elev),
   ("JD", PVal.num JD), ("X_res", PVal.num X_res), ("Y_res", PVal.num Y_res),
   ("focal_length", PVal.num focal_length), ("RA_d", PVal.num RA_d),
   ("dec_d", PVal.num dec_d), ("pos_angle_ref", PVal.num pos_angle_ref),
   ("F_scale", PVal.num F_scale), ("mag_0", PVal.num mag_0),
   ("mag_lev", PVal.num mag_lev), ("x_poly", PVal.numList xp),
   ("y_poly", PVal.numList yp)]

/-- The C4 statement for one document: loading succeeds (with the default
flat flag None) and yields version 1, distortion type "poly3+radial" with
the loaded coefficients kept (all four vectors and both legacy aliases
equal to the loaded x_poly/y_poly), UT_corr 0, gamma 1.0, an empty star
list and a non-None vignetting coefficient. -/
def c4Prop (rotw : Dict → ℚ) (hypot : ℚ → ℚ → ℚ) (d : Dict) : Prop :=
  ∃ d2, loadFromDictD rotw hypot d Option.none = Except.ok d2 ∧
    d2.get? "version" = some (PVal.num 1) ∧
    d2.get? "distortion_type" = some (PVal.str "poly3+radial") ∧
    d2.get? "UT_corr" = some (PVal.num 0) ∧
    d2.get? "gamma" = some (PVal.num 1) ∧
    d2.get? "star_list" = some (PVal.starList []) ∧
    (∃ q, d2.get? "vignetting_coeff" = some (PVal.num q)) ∧
    d2.get? "x_poly_fwd" = d.get? "x_poly" ∧
    d2.get? "x_poly_rev" = d.get? "x_poly" ∧
    d2.get? "x_poly" = d.get? "x_poly" ∧
    d2.get? "y_poly_fwd" = d.get? "y_poly" ∧
    d2.get? "y_poly_rev" = d.get? "y_poly" ∧
    d2.get? "y_poly" = d.get? "y_poly"

set_option maxHeartbeats 1000000 in
/-- C4: loading a structured document that contains only the
version-1-style keys yields version 1, distortion type "poly3+radial"
without resetting the loaded coefficients (both forward and reverse
vectors and both legacy aliases equal the loaded single vectors), UT_corr
0, gamma 1.0, an empty star list and a non-None vignetting coefficient. -/
theorem c4_version1_defaulting (rotw : Dict → ℚ) (hypot : ℚ → ℚ → ℚ)
    (lon lat elev JD X_res Y_res focal_length RA_d dec_d pos_angle_ref
     F_scale mag_0 mag_lev : ℚ) (xp yp : List ℚ) :
    c4Prop rotw hypot (v1Doc lon lat elev JD X_res Y_res focal_length RA_d
      dec_d pos_angle_ref F_scale mag_0 mag_lev xp yp) := by
  unfold c4Prop
  simp only [loadFromDictD, stepVersion, stepDistortionTypeDefault,
    stepSetDistortionType, stepUTCorr, stepGamma, stepVignetting,
    addVignettingCoeffD, stepStarList, stepPolyAlias, stepNumpyCoerce,
    stepPolyLegacy, stepRotation, stepTime, v1Doc, Dict.hasKey, Dict.get?,
    Dict.set, validDistortionTypes, String.reduceEq, reduceIte,
    Option.isSome, bind, Except.bind, List.mem_cons, List.not_mem_nil,
    or_false, or_true, reduceCtorEq]
  exact ⟨_, rfl, rfl, rfl, rfl, rfl, rfl, ⟨_, rfl⟩, rfl, rfl, rfl, rfl,
    rfl, rfl⟩

/-- C4 witness: the theorem applied at a concrete document. -/
theorem c4_version1_defaulting_witness :
    c4Prop (fun _ => 7) (fun a b => a + b)
      (v1Doc 20 44 100 2451545 1280 720 4 10 20 30 40 (-3) 10 [1, 2, 3]
        [4, 5, 6]) :=
  c4_version1_defaulting (fun _ => 7) (fun a b => a + b) 20 44 100 2451545
    1280 720 4 10 20 30 40 (-3) 10 [1, 2, 3] [4, 5, 6]

/-! Claim C2. -/

/-- The C2 statement (as amended) for one model state and any externals:
serializing with `jsonStr` and loading the result with `loadFromDict`
succeeds and reproduces every attribute of the model bit-for-bit, except
that the human-readable time attribute is recomputed from the Julian date
(`jd2Date JD`, i.e. `julianDateToCalendar(JD) == time`) and the legacy
alias attributes `x_poly`/`y_poly` are rewritten to the forward vectors. -/
def c2Prop (rotw : Dict → ℚ) (hypot : ℚ → ℚ → ℚ) (flat : Option Bool)
    (pp : Platepar) : Prop :=
  ∃ d2, loadFromDictD rotw hypot pp.jsonStr flat = Except.ok d2 ∧
    d2.get? "version" = some (PVal.num pp.version) ∧
    d2.get? "distortion_type" = some (PVal.str pp.distortion_type) ∧
    d2.get? "distortion_type_list" =
      some (PVal.strList pp.distortion_type_list) ∧
    d2.get? "lat" = some (PVal.num pp.lat) ∧
    d2.get? "lon" = some (PVal.num pp.lon) ∧
    d2.get? "elev" = some (PVal.num pp.elev) ∧
    d2.get? "time" = some (PVal.date pp.JD) ∧
    d2.get? "JD" = some (PVal.num pp.JD) ∧
    d2.get? "UT_corr" = some (PVal.num pp.UT_corr) ∧
    d2.get? "Ho" = some (PVal.num pp.Ho) ∧
    d2.get? "X_res" = some (PVal.num pp.X_res) ∧
    d2.get? "Y_res" = some (PVal.num pp.Y_res) ∧
    d2.get? "focal_length" = some (PVal.num pp.focal_length) ∧
    d2.get? "fov_h" = some (PVal.num pp.fov_h) ∧
    d2.get? "fov_v" = some (PVal.num pp.fov_v) ∧
    d2.get? "RA_d" = some (PVal.num pp.RA_d) ∧
    d2.get? "RA_H" = some (PVal.num pp.RA_H) ∧
    d2.get? "RA_M" = some (PVal.num pp.RA_M) ∧
    d2.get? "RA_S" = some (PVal.num pp.RA_S) ∧
    d2.get? "dec_d" = some (PVal.num pp.dec_d) ∧
    d2.get? "dec_D" = some (PVal.num pp.dec_D) ∧
    d2.get? "dec_M" = some (PVal.num pp.dec_M) ∧
    d2.get? "dec_S" = some (PVal.num pp.dec_S) ∧
    d2.get? "pos_angle_ref" = some (PVal.num pp.pos_angle_ref) ∧
    d2.get? "rotation_from_horiz" =
      some (PVal.num pp.rotation_from_horiz) ∧
    d2.get? "az_centre" = some (PVal.num pp.az_centre) ∧
    d2.get? "alt_centre" = some (PVal.num pp.alt_centre) ∧
    d2.get? "F_scale" = some (PVal.num pp.F_scale) ∧
    d2.get? "mag_0" = some (PVal.num pp.mag_0) ∧
    d2.get? "mag_lev" = some (PVal.num pp.mag_lev) ∧
    d2.get? "mag_lev_stddev" = some (PVal.num pp.mag_lev_stddev) ∧
    d2.get? "gamma" = some (PVal.num pp.gamma) ∧
    d2.get? "vignetting_coeff" = some (optNum pp.vignetting_coeff) ∧
    d2.get? "station_code" = some (optStr pp.station_code) ∧
    d2.get? "star_list" = some (optStars pp.star_list) ∧
    d2.get? "auto_check_fit_refined" =
      some (PVal.bool pp.auto_check_fit_refined) ∧
    d2.get? "auto_recalibrated" = some (PVal.bool pp.auto_recalibrated) ∧
    d2.get? "x_poly_fwd" = some (PVal.numList pp.x_poly_fwd) ∧
    d2.get? "y_poly_fwd" = some (PVal.numList pp.y_poly_fwd) ∧
    d2.get? "x_poly_rev" = some (PVal.numList pp.x_poly_rev) ∧
    d2.get? "y_poly_rev" = some (PVal.numList pp.y_poly_rev) ∧
    d2.get? "x_poly" = some (PVal.numList pp.x_poly_fwd) ∧
    d2.get? "y_poly" = some (PVal.numList pp.y_poly_fwd)

/-- Externals used by the concrete witnesses: a constant
rotationWrtHorizon. -/
def sampleRotw : Dict → ℚ := fun _ => 7

/-- Externals used by the concrete witnesses: a simple stand-in for
np.hypot. -/
def sampleHypot : ℚ → ℚ → ℚ := fun a b => a + b

/-- A concrete freshly-constructed platepar. -/
def samplePlatepar : Platepar :=
  (Platepar.new "poly3+radial").toOption.getD (initBase "poly3+radial")

/-- Identity-like external collaborators for concrete fitAstrometry
runs: every minimizer returns its start point. -/
def idFitExt : FitExt where
  minAstro := fun _ _ _ _ p => p
  minRev := fun _ _ _ _ _ v => v
  minFwd := fun _ _ _ _ _ v => v
  raDec2AltAz := fun _ _ _ _ _ => (0, 0)

/-- A concrete model state produced by a first-fit `fitAstrometry` run on
a fresh platepar: the fit rebinds `x_poly_fwd` (sign-inverting element 0)
without updating the legacy alias `x_poly`, so afterwards
`x_poly ≠ x_poly_fwd`. -/
def c2CexPlatepar : Platepar :=
  (fitAstrometry idFitExt 0 (List.replicate 13 ([0, 0, 0] : List ℚ))
    (List.replicate 13 ([0, 0, 0] : List ℚ)) true samplePlatepar).1

/-- The dictionary produced by round-tripping `c2CexPlatepar`. -/
def c2CexOut : Dict :=
  (loadFromDictD sampleRotw sampleHypot c2CexPlatepar.jsonStr
    Option.none).toOption.getD []

/-- C2 (counterexample to the claim as stated): the claim asserts that the
round trip reproduces every model field except time; but `jsonStr` and
`loadFromDict` both rewrite the legacy alias attribute `x_poly` to the
forward vector, so for the concrete post-fit state `c2CexPlatepar` (whose
stale `x_poly` differs from `x_poly_fwd`) the reloaded `x_poly` attribute
differs from the original field value. -/
theorem c2_counterexample :
    loadFromDictD sampleRotw sampleHypot c2CexPlatepar.jsonStr
      Option.none = Except.ok c2CexOut ∧
    c2CexOut.get? "x_poly" ≠ some (PVal.numList c2CexPlatepar.x_poly) := by
  refine ⟨rfl, ?_⟩
  intro hc
  have hx : c2CexOut.get? "x_poly" =
      some (PVal.numList c2CexPlatepar.x_poly_fwd) := rfl
  rw [hx] at hc
  simp only [Option.some.injEq, PVal.numList.injEq] at hc
  have ha : c2CexPlatepar.x_poly_fwd.headD 0 = -(1/2) := rfl
  have hb : c2CexPlatepar.x_poly.headD 0 = 1/2 := rfl
  rw [hc, hb] at ha
  norm_num at ha

set_option maxHeartbeats 2000000 in
/-- C2 (amended): for every model state with a valid active distortion
type (and the standard distortion type list, both guaranteed for every
state produced by the constructor, `setDistortionType` or a load),
serializing with `jsonStr` and reloading with `loadFromDict` succeeds and
reproduces every model attribute bit-for-bit, except the human-readable
time (recomputed from JD, so that `julianDateToCalendar(JD) == time`) and
the legacy alias attributes `x_poly`/`y_poly`, which are rewritten to the
forward vectors on both the write and the read path. -/
theorem c2_json_round_trip (rotw : Dict → ℚ) (hypot : ℚ → ℚ → ℚ)
    (flat : Option Bool) (pp : Platepar)
    (h1 : pp.distortion_type ∈ validDistortionTypes)
    (h2 : pp.distortion_type_list = validDistortionTypes) :
    c2Prop rotw hypot flat pp := by
  obtain ⟨ver, dt, dtl, la, lo, el, tim, jd, ut, ho, xres, yres, fl, fh,
    fv, rad, rah, ram, ras, dcd, dcD, dcM, dcS, par, rot, az, alt, fs, m0,
    ml, ms, ga, vc, sc, sl, fl1, fl2, xf, yf, xr, yr, xpl, ypl⟩ := pp
  subst h2
  simp only at h1
  unfold c2Prop
  simp only [Platepar.jsonStr, Platepar.toDict, Dict.erase, List.filter,
    loadFromDictD, stepVersion, stepDistortionTypeDefault,
    stepSetDistortionType, stepUTCorr, stepGamma, stepVignetting,
    addVignettingCoeffD, stepStarList, stepPolyAlias, stepNumpyCoerce,
    stepPolyLegacy, stepRotation, stepTime, Dict.hasKey, Dict.get?,
    Dict.set, String.reduceEq, String.reduceBNe, reduceIte, Option.isSome,
    bind, Except.bind, h1, if_true, reduceCtorEq]
  exact ⟨_, rfl, rfl, rfl, rfl, rfl, rfl, rfl, rfl, rfl, rfl, rfl, rfl,
    rfl, rfl, rfl, rfl, rfl, rfl, rfl, rfl, rfl, rfl, rfl, rfl, rfl, rfl,
    rfl, rfl, rfl, rfl, rfl, rfl, rfl, rfl, rfl, rfl, rfl, rfl, rfl, rfl,
    rfl, rfl, rfl, rfl⟩

/-- C2 witness: the amended theorem applied at a concrete fresh
platepar. -/
theorem c2_json_round_trip_witness :
    samplePlatepar.distortion_type ∈ validDistortionTypes ∧
    samplePlatepar.distortion_type_list = validDistortionTypes ∧
    c2Prop sampleRotw sampleHypot Option.none samplePlatepar :=
  ⟨by decide, by decide,
   c2_json_round_trip sampleRotw sampleHypot Option.none samplePlatepar
     (by decide) (by decide)⟩

/-- A concrete version-1-style document for the C10 witness. -/
def c10SampleDoc : Dict :=
  v1Doc 20 44 100 2451545 1280 720 4 10 20 30 40 (-3) 10 [1, 2, 3]
    [4, 5, 6]

/-- The dictionary produced by loading the concrete document. -/
def c10SampleOut : Dict :=
  (loadFromDictD sampleRotw sampleHypot c10SampleDoc
    Option.none).toOption.getD []

/-- C10 witness: the theorem applied at a concrete successful load. -/
theorem c10_load_replaces_field_set_witness :
    loadFromDictD sampleRotw sampleHypot c10SampleDoc Option.none =
      Except.ok c10SampleOut ∧
    c10Prop c10SampleDoc c10SampleOut :=
  ⟨rfl, c10_load_replaces_field_set sampleRotw sampleHypot c10SampleDoc
    Option.none c10SampleOut rfl⟩

end RMSPlatepar
